import Mathlib

/-!
Verification development for the interview-answer evaluation pipeline:
LLM response parsing/recovery (`parseEvaluationResponse`), score
validation/repair (`validateAndRepairScore`, `validateStringField`,
`validateEvaluationResult`), the recovery-strategy selector
(`determineRecoveryStrategy`), the orchestrating retry loop
(`EvaluationClient.evaluate`, modelled as `evalLoop`/`evaluate`), and the
weighted-normalized scoring block of the `evaluate-answer` edge function
(`weightedFinalScore`).

JavaScript numbers are modelled as exact rationals (`ℚ`), with `none : Option ℚ`
standing for `NaN` where a coercion can fail.  Strings are Lean `String`s
(JS `.length` counts UTF-16 units; for the ASCII data involved here the two
notions of length coincide).
-/

/-- A parsed JSON value, as produced by JavaScript's `JSON.parse`. -/
inductive Json where
  | null : Json
  | bool (b : Bool) : Json
  | num (q : ℚ) : Json
  | str (s : String) : Json
  | arr (elems : List Json) : Json
  | obj (fields : List (String × Json)) : Json

/-- JavaScript truthiness test on a parsed JSON value (`!value` in JS). -/
def jsFalsy : Json → Bool
  | .null => true
  | .bool b => !b
  | .num q => q == 0
  | .str s => s == ""
  | .arr _ => false
  | .obj _ => false

/-- Is this parsed value JSON `null`?  (`value === null` in JS.) -/
def Json.isNull : Json → Bool
  | .null => true
  | _ => false

/-- Property lookup `data.field` on a parsed JSON value.  `JSON.parse` keeps
the last of duplicate keys, so the lookup returns the last binding; on a
non-object the access yields `undefined` (`none`). -/
def lookupLast : List (String × Json) → String → Option Json
  | [], _ => none
  | (k2, v) :: rest, k =>
    match lookupLast rest k with
    | some r => some r
    | none => if k2 = k then some v else none

/-- Model of the JS property access: `jget d k` models `d[k]` on parsed JSON data. -/
def jget : Json → String → Option Json
  | .obj fs, k => lookupLast fs k
  | _, _ => none

-- ===========================================================================
-- Character helpers (JS whitespace, control characters, quote characters)
-- ===========================================================================

/-- The backtick character (kept out of the source text). -/
def btChar : Char := Char.ofNat 96

/-- The single-quote character. -/
def sqChar : Char := Char.ofNat 39

/-- JavaScript's `\s` regex class / `String.prototype.trim` whitespace
(the members that occur in practice; exotic Unicode spaces omitted). -/
def isJsWs (c : Char) : Bool :=
  c = ' ' ∨ c = '\t' ∨ c = '\n' ∨ c = '\r' ∨
  c = Char.ofNat 0x0B ∨ c = Char.ofNat 0x0C ∨ c = Char.ofNat 0xA0 ∨
  c = Char.ofNat 0xFEFF ∨ c = Char.ofNat 0x2028 ∨ c = Char.ofNat 0x2029

/-- Trim JS whitespace from both ends of a character list (`.trim()`). -/
def trimWs (s : List Char) : List Char :=
  ((s.dropWhile isJsWs).reverse.dropWhile isJsWs).reverse

-- ===========================================================================
-- Strict JSON parser (JavaScript `JSON.parse`)
-- ===========================================================================

/-- JSON structural whitespace (space, tab, line feed, carriage return). -/
def isJsonWs (c : Char) : Bool :=
  c = ' ' ∨ c = '\t' ∨ c = '\n' ∨ c = '\r'

/-- Skip JSON structural whitespace. -/
def skipJsonWs : List Char → List Char
  | [] => []
  | c :: cs => if isJsonWs c then skipJsonWs cs else c :: cs

/-- Hexadecimal digit value. -/
def hexVal (c : Char) : Option Nat :=
  if '0' ≤ c ∧ c ≤ '9' then some (c.toNat - 48)
  else if 'a' ≤ c ∧ c ≤ 'f' then some (c.toNat - 87)
  else if 'A' ≤ c ∧ c ≤ 'F' then some (c.toNat - 55)
  else none

/-- Decimal digit run to a natural number. -/
def digitsToNat (ds : List Char) : Nat :=
  ds.foldl (fun a c => a * 10 + (c.toNat - 48)) 0

/-- Parse the body of a JSON string literal (opening quote already consumed).
Handles the JSON escapes; rejects raw control characters, as `JSON.parse`
does.  Surrogate-pair recombination in `\u` escapes is not modelled. -/
def parseStringBody : List Char → List Char → Option (String × List Char)
  | acc, c :: cs =>
    if c = '"' then some ((acc.reverse).asString, cs)
    else if c = '\\' then
      match cs with
      | e :: cs2 =>
        if e = '"' then parseStringBody ('"' :: acc) cs2
        else if e = '\\' then parseStringBody ('\\' :: acc) cs2
        else if e = '/' then parseStringBody ('/' :: acc) cs2
        else if e = 'b' then parseStringBody (Char.ofNat 8 :: acc) cs2
        else if e = 'f' then parseStringBody (Char.ofNat 12 :: acc) cs2
        else if e = 'n' then parseStringBody ('\n' :: acc) cs2
        else if e = 'r' then parseStringBody ('\r' :: acc) cs2
        else if e = 't' then parseStringBody ('\t' :: acc) cs2
        else if e = 'u' then
          match cs2 with
          | h1 :: h2 :: h3 :: h4 :: cs3 =>
            match hexVal h1, hexVal h2, hexVal h3, hexVal h4 with
            | some a, some b, some c3, some d =>
              parseStringBody (Char.ofNat (((a * 16 + b) * 16 + c3) * 16 + d) :: acc) cs3
            | _, _, _, _ => none
          | _ => none
        else none
      | [] => none
    else if c.toNat < 0x20 then none
    else parseStringBody (c :: acc) cs
  | _, [] => none

/-- Fraction part of a JSON number: `('.' digits+)?`.
Returns the fraction digits and the rest. -/
def parseFracPart : List Char → Option (List Char × List Char)
  | c :: rest =>
    if c = '.' then
      let p := rest.span Char.isDigit
      if p.1 = [] then none else some (p.1, p.2)
    else some ([], c :: rest)
  | [] => some ([], [])

/-- Exponent part of a JSON number: `(('e'|'E') ('+'|'-')? digits+)?`.
Returns the signed exponent and the rest. -/
def parseExpPart : List Char → Option (Int × List Char)
  | c :: rest =>
    if c = 'e' ∨ c = 'E' then
      let sp : Int × List Char :=
        match rest with
        | k :: ks => if k = '+' then (1, ks) else if k = '-' then (-1, ks) else (1, rest)
        | [] => (1, rest)
      let p := sp.2.span Char.isDigit
      if p.1 = [] then none else some (sp.1 * (digitsToNat p.1 : Int), p.2)
    else some (0, c :: rest)
  | [] => some (0, [])

/-- Parse a JSON number literal (strict grammar: optional `-`, no leading
zeros, optional fraction and exponent).  The exact rational value is
returned; IEEE-754 rounding of `JSON.parse` is not modelled (all numbers
appearing in this development are exactly representable). -/
def parseNumberLit (s : List Char) : Option (ℚ × List Char) :=
  let sg : Bool × List Char :=
    match s with
    | c :: cs => if c = '-' then (true, cs) else (false, s)
    | [] => (false, s)
  let ip := sg.2.span Char.isDigit
  if ip.1 = [] then none
  else if ip.1.length > 1 ∧ ip.1.head? = some '0' then none
  else
    match parseFracPart ip.2 with
    | none => none
    | some (fr, s3) =>
      match parseExpPart s3 with
      | none => none
      | some (ex, s4) =>
        let m : Nat := digitsToNat (ip.1 ++ fr)
        let num : Int := (if sg.1 then -(m : Int) else (m : Int)) * (10 ^ ex.toNat : Nat)
        let den : Nat := 10 ^ fr.length * 10 ^ (-ex).toNat
        some (mkRat num den, s4)

/-- Parsing mode of the recursive JSON parser: a single value, the members
of an object (with members parsed so far), or the elements of an array. -/
inductive PMode where
  | val : PMode
  | members (acc : List (String × Json)) : PMode
  | elems (acc : List Json) : PMode

/-- The recursive core of `JSON.parse`, fuel-based and in one structurally
recursive function so the kernel can evaluate it on concrete input. -/
def parseCore : Nat → PMode → List Char → Option (Json × List Char)
  | 0, _, _ => none
  | fuel + 1, .val, s =>
    match skipJsonWs s with
    | [] => none
    | c :: cs =>
      if c = '"' then
        match parseStringBody [] cs with
        | some (str, r) => some (Json.str str, r)
        | none => none
      else if c = '{' then
        match skipJsonWs cs with
        | '}' :: r => some (Json.obj [], r)
        | r => parseCore fuel (.members []) r
      else if c = '[' then
        match skipJsonWs cs with
        | ']' :: r => some (Json.arr [], r)
        | r => parseCore fuel (.elems []) r
      else if c = 't' then
        match cs with
        | 'r' :: 'u' :: 'e' :: r => some (Json.bool true, r)
        | _ => none
      else if c = 'f' then
        match cs with
        | 'a' :: 'l' :: 's' :: 'e' :: r => some (Json.bool false, r)
        | _ => none
      else if c = 'n' then
        match cs with
        | 'u' :: 'l' :: 'l' :: r => some (Json.null, r)
        | _ => none
      else if c.isDigit ∨ c = '-' then
        match parseNumberLit (c :: cs) with
        | some (q, r) => some (Json.num q, r)
        | none => none
      else none
  | fuel + 1, .members acc, s =>
    match skipJsonWs s with
    | '"' :: cs =>
      match parseStringBody [] cs with
      | some (k, r1) =>
        match skipJsonWs r1 with
        | ':' :: r2 =>
          match parseCore fuel .val r2 with
          | some (v, r3) =>
            match skipJsonWs r3 with
            | ',' :: r4 => parseCore fuel (.members ((k, v) :: acc)) r4
            | '}' :: r4 => some (Json.obj ((k, v) :: acc).reverse, r4)
            | _ => none
          | none => none
        | _ => none
      | none => none
    | _ => none
  | fuel + 1, .elems acc, s =>
    match parseCore fuel .val s with
    | some (v, r1) =>
      match skipJsonWs r1 with
      | ',' :: r2 => parseCore fuel (.elems (v :: acc)) r2
      | ']' :: r2 => some (Json.arr ((v :: acc).reverse), r2)
      | _ => none
    | none => none

/-- Model of JS parsing: `jsonParse s` models `JSON.parse(s)`: one value with surrounding
whitespace, no trailing garbage; `none` models a thrown `SyntaxError`. -/
def jsonParse (s : List Char) : Option Json :=
  match parseCore (2 * s.length + 4) .val s with
  | some (v, rest) => if skipJsonWs rest = [] then some v else none
  | none => none

-- ===========================================================================
-- Response Recoverer: parseEvaluationResponse (evaluation-validator.ts 41-99)
-- ===========================================================================

/-- Result record of `parseEvaluationResponse`. -/
structure ParseOutcome where
  success : Bool
  data : Option Json
  error : Option String

/-- The terminal-failure message of the recovery cascade. -/
def parseFailMsg : String :=
  "Failed to parse response as JSON after all recovery attempts"

/-- Drop `pat` from the front of `s`, or `none` when `s` does not start
with `pat`. -/
def dropLead : List Char → List Char → Option (List Char)
  | [], s => some s
  | p :: ps, c :: cs => if c = p then dropLead ps cs else none
  | _ :: _, [] => none

/-- Three backticks, the code-fence delimiter. -/
def fenceChars : List Char := [btChar, btChar, btChar]

/-- Split `s` at the first occurrence of a code fence: returns the part
before the fence and the part after it. -/
def splitAtFence : List Char → Option (List Char × List Char)
  | [] => none
  | c :: cs =>
    match dropLead fenceChars (c :: cs) with
    | some rest => some ([], rest)
    | none =>
      match splitAtFence cs with
      | some (b, a) => some (c :: b, a)
      | none => none

/-- Model of the first match of the regex `(three backticks)(json)?\s*
([anything]*?)(three backticks)` (step 2 of the cascade): after an opening
fence, an optional `json` tag and greedy whitespace, the lazily captured
content runs to the next fence.  An opening fence with no closing fence is
skipped, as the regex engine moves to a later starting position. -/
def matchFenceAux : Nat → List Char → Option (List Char)
  | 0, _ => none
  | fuel + 1, s =>
    match splitAtFence s with
    | none => none
    | some (_, afterOpen) =>
      let afterTag :=
        match dropLead ['j', 's', 'o', 'n'] afterOpen with
        | some r => r
        | none => afterOpen
      let cap := afterTag.dropWhile isJsWs
      match splitAtFence cap with
      | some (content, _) => some content
      | none => matchFenceAux fuel afterOpen

/-- First fenced code block's captured content, if any. -/
def matchFence (s : List Char) : Option (List Char) :=
  matchFenceAux (s.length + 1) s

/-- Model of the first match of the greedy regex `\{[anything]*\}` (steps 3
and 4 of the cascade): the span from the first `{` through the last `}`,
when that span is non-degenerate. -/
def extractJsonSpan (s : List Char) : Option (List Char) :=
  let fromBrace := s.dropWhile (fun c => !(c = '{'))
  let upToLast := (fromBrace.reverse.dropWhile (fun c => !(c = '}'))).reverse
  if upToLast.isEmpty then none else some upToLast

/-- Remove ASCII control characters (step 4 sanitization, first `replace`). -/
def removeCtl (s : List Char) : List Char :=
  s.filter (fun c => !(c.toNat ≤ 0x1F ∨ c.toNat = 0x7F))

/-- Global replacement of the regex `,\s*X` by `X` for a closing character
`X` (step 4 sanitization, trailing-comma removal). -/
def stripCommaClose (close : Char) : Nat → List Char → List Char
  | 0, s => s
  | _ + 1, [] => []
  | fuel + 1, c :: cs =>
    if c = ',' then
      match cs.dropWhile isJsWs with
      | d :: rest =>
        if d = close then close :: stripCommaClose close fuel rest
        else c :: stripCommaClose close fuel cs
      | [] => c :: stripCommaClose close fuel cs
    else c :: stripCommaClose close fuel cs

/-- Replace every single quote by a double quote (step 4 sanitization). -/
def replaceQuotes (s : List Char) : List Char :=
  s.map (fun c => if c = sqChar then '"' else c)

/-- Step 4 of the cascade: sanitize, re-extract a `{...}` span, parse. -/
def parseStepFour (s : List Char) : ParseOutcome :=
  let sanitized :=
    trimWs (replaceQuotes
      (stripCommaClose ']' (s.length + 1)
        (stripCommaClose '}' (s.length + 1) (removeCtl s))))
  match extractJsonSpan sanitized with
  | some span =>
    match jsonParse span with
    | some v => ⟨true, some v, none⟩
    | none => ⟨false, none, some parseFailMsg⟩
  | none => ⟨false, none, some parseFailMsg⟩

/-- Step 3 of the cascade: extract a `{...}` span from the raw text and
parse it; on failure fall through to step 4. -/
def parseStepThree (s : List Char) : ParseOutcome :=
  match extractJsonSpan s with
  | some span =>
    match jsonParse span with
    | some v => ⟨true, some v, none⟩
    | none => parseStepFour s
  | none => parseStepFour s

/-- Function `parseEvaluationResponse` (evaluation-validator.ts 41-99): the four-step
JSON recovery cascade — direct parse, fenced code block, `{...}` span,
sanitize-then-span. -/
def parseEvaluationResponse (raw : String) : ParseOutcome :=
  let s := raw.toList
  match jsonParse s with
  | some v => ⟨true, some v, none⟩
  | none =>
    match matchFence s with
    | some inner =>
      match jsonParse (trimWs inner) with
      | some v => ⟨true, some v, none⟩
      | none => parseStepThree s
    | none => parseStepThree s

-- ===========================================================================
-- JavaScript value coercions (Number(...), String(...))
-- ===========================================================================

/-- Loose decimal literal for `Number(string)`: `digits* ('.' digits*)?`
with at least one digit, optional exponent; leading zeros allowed. -/
def parseDecimalLoose (s : List Char) : Option ℚ :=
  let ip := s.span Char.isDigit
  let fp : List Char × List Char :=
    match ip.2 with
    | '.' :: r =>
      let p := r.span Char.isDigit
      (p.1, p.2)
    | r => ([], r)
  if ip.1.isEmpty ∧ fp.1.isEmpty then none
  else
    match parseExpPart fp.2 with
    | none => none
    | some (ex, rest) =>
      if rest.isEmpty then
        let m : Nat := digitsToNat (ip.1 ++ fp.1)
        some (mkRat ((m : Int) * (10 ^ ex.toNat : Nat)) (10 ^ fp.1.length * 10 ^ (-ex).toNat))
      else none

/-- Hexadecimal digit run to a natural number. -/
def hexToNat (ds : List Char) : Nat :=
  ds.foldl (fun a c => a * 16 + ((hexVal c).getD 0)) 0

/-- Model of `Number(s)` for a string `s`: trimmed empty string is `0`; hex literals
(no sign) and signed loose decimals are accepted; everything else is `NaN`
(`none`).  `Infinity` and binary/octal literals are not modelled (they do
not occur in this pipeline's data). -/
def jsStringToNumber (s : String) : Option ℚ :=
  let t := trimWs s.toList
  if t.isEmpty then some 0
  else
    match t with
    | '0' :: x :: rest =>
      if (x = 'x' ∨ x = 'X') ∧ !rest.isEmpty ∧ rest.all (fun c => (hexVal c).isSome) then
        some ((hexToNat rest : ℚ))
      else
        parseDecimalLoose t
    | '-' :: rest => (parseDecimalLoose rest).map (fun q => -q)
    | '+' :: rest => parseDecimalLoose rest
    | _ => parseDecimalLoose t

/-- Model of `Number(value)` for a parsed JSON value; `none` models `NaN`.
Array coercion goes through stringification in JS; it is modelled for the
flat cases (empty array, singleton primitive) and degrades to `NaN` for
nested arrays, which never carry scores in this pipeline. -/
def toNumber : Json → Option ℚ
  | .num q => some q
  | .str s => jsStringToNumber s
  | .bool b => some (if b then 1 else 0)
  | .null => some 0
  | .arr [] => some 0
  | .arr [x] =>
    match x with
    | .num q => some q
    | .str s => jsStringToNumber s
    | .null => some 0
    | _ => none
  | .arr (_ :: _ :: _) => none
  | .obj _ => none

/-- Exact decimal rendering of a rational whose denominator divides a power
of ten (every number produced by `JSON.parse` is of this form), matching
JS number-to-string output for such values. -/
def qToDecimalString (q : ℚ) : String :=
  let sgn := if q.num < 0 then "-" else ""
  let n := q.num.natAbs
  let d := q.den
  match (List.range 41).find? (fun k => 10 ^ k % d = 0) with
  | some k =>
    if k = 0 then sgn ++ Nat.repr (n / d)
    else
      let scaled := n * (10 ^ k / d)
      let digits := Nat.repr scaled
      let padded :=
        if digits.length < k + 1 then
          String.mk (List.replicate (k + 1 - digits.length) '0') ++ digits
        else digits
      let ipart := String.mk (padded.toList.take (padded.length - k))
      let fpart := ((padded.toList.drop (padded.length - k)).reverse.dropWhile
        (fun c => c = '0')).reverse
      if fpart.isEmpty then sgn ++ ipart
      else sgn ++ ipart ++ "." ++ String.mk fpart
  | none => sgn ++ Nat.repr n ++ "div" ++ Nat.repr d

/-- One-level stringification of an array element (JS array-join rules:
`null` joins as the empty string). -/
def jsToStringAtom : Json → String
  | .null => ""
  | .bool b => if b then "true" else "false"
  | .num q => qToDecimalString q
  | .str s => s
  | .arr _ => ""
  | .obj _ => "[object Object]"

/-- Model of `String(value)` for a parsed JSON value (arrays modelled to one nesting
level; this pipeline only stringifies strings). -/
def jsToString : Json → String
  | .null => "null"
  | .bool b => if b then "true" else "false"
  | .num q => qToDecimalString q
  | .str s => s
  | .arr xs => String.intercalate "," (xs.map jsToStringAtom)
  | .obj _ => "[object Object]"

/-- Model of `Math.round(q)`: round half toward positive infinity. -/
def jsRound (q : ℚ) : ℤ := ⌊q + mkRat 1 2⌋

-- ===========================================================================
-- Score validation & repair (evaluation-validator.ts 105-220)
-- ===========================================================================

/-- The score fields of `SCORE_BOUNDS` (evaluation.types.ts 102-108). -/
inductive ScoreField where
  | concept_accuracy | example_usage | edge_cases | clarity | final_score
deriving DecidableEq

/-- The JS property-name string of a score field. -/
def ScoreField.fieldName : ScoreField → String
  | .concept_accuracy => "concept_accuracy"
  | .example_usage => "example_usage"
  | .edge_cases => "edge_cases"
  | .clarity => "clarity"
  | .final_score => "final_score"

/-- A per-criterion score bound. -/
structure ScoreBounds where
  min : ℚ
  max : ℚ

/-- Constant `SCORE_BOUNDS` (evaluation.types.ts 102-108). -/
def SCORE_BOUNDS : ScoreField → ScoreBounds
  | .concept_accuracy => ⟨0, 4⟩
  | .example_usage => ⟨0, 3⟩
  | .edge_cases => ⟨0, 2⟩
  | .clarity => ⟨0, 1⟩
  | .final_score => ⟨0, 10⟩

/-- A validation error (the `received`/`expected` diagnostic payloads are
omitted: they never influence control flow). -/
structure ValidationError where
  field : String
  message : String
deriving DecidableEq

/-- A validation warning (the formatted `action` text is omitted: it never
influences control flow). -/
structure ValidationWarning where
  field : String
  message : String
deriving DecidableEq

/-- Result of repairing one numeric criterion; the `errors`/`warnings`
components model the entries the source pushes onto the shared arrays. -/
structure ScoreOutcome where
  score : ℚ
  wasRepaired : Bool
  errors : List ValidationError
  warnings : List ValidationWarning
deriving DecidableEq

/-- The round-then-clamp part of `validateAndRepairScore` (evaluation-
validator.ts 139-171), applied once the value has coerced to the number
`score0`: non-integers are rounded (`Math.round`), then the value is
clamped to `[bounds.min, bounds.max]`, each correction with a warning. -/
def repairNumeric (score0 : ℚ) (field : ScoreField) : ScoreOutcome :=
  let bounds := SCORE_BOUNDS field
  let r1 : ℚ × Bool × List ValidationWarning :=
    if score0.den = 1 then (score0, false, [])
    else ((jsRound score0 : ℤ), true, [⟨field.fieldName, "Score was not an integer"⟩])
  let r2 : ℚ × Bool × List ValidationWarning :=
    if r1.1 < bounds.min then (bounds.min, true, [⟨field.fieldName, "Score below minimum"⟩])
    else (r1.1, false, [])
  let r3 : ℚ × Bool × List ValidationWarning :=
    if r2.1 > bounds.max then (bounds.max, true, [⟨field.fieldName, "Score above maximum"⟩])
    else (r2.1, false, [])
  ⟨r3.1, r1.2.1 || r2.2.1 || r3.2.1, [], r1.2.2 ++ r2.2.2 ++ r3.2.2⟩

/-- Function `validateAndRepairScore` (evaluation-validator.ts 105-172): missing or
non-numeric values are hard errors substituted by 0; numeric values are
repaired by `repairNumeric`. -/
def validateAndRepairScore (value : Option Json) (field : ScoreField) : ScoreOutcome :=
  match value with
  | none => ⟨0, true, [⟨field.fieldName, "Missing required field"⟩], []⟩
  | some j =>
    if j.isNull then ⟨0, true, [⟨field.fieldName, "Missing required field"⟩], []⟩
    else
      match toNumber j with
      | none => ⟨0, true, [⟨field.fieldName, "Invalid number"⟩], []⟩
      | some score0 => repairNumeric score0 field

/-- Result of validating one free-text field. -/
structure StringOutcome where
  text : String
  wasRepaired : Bool
  errors : List ValidationError
  warnings : List ValidationWarning
deriving DecidableEq

/-- The substituted default for absent or empty feedback text. -/
def defaultFeedbackText : String := "No feedback provided."

/-- Function `validateStringField` (evaluation-validator.ts 178-220): a missing value
is a (non-critical) error with the default text substituted; an empty
string gets the default with a warning; overlength text is truncated with
an ellipsis and a warning. -/
def validateStringField (value : Option Json) (field : String) (maxLength : Nat) :
    StringOutcome :=
  match value with
  | none => ⟨defaultFeedbackText, true, [⟨field, "Missing required field"⟩], []⟩
  | some j =>
    if j.isNull then ⟨defaultFeedbackText, true, [⟨field, "Missing required field"⟩], []⟩
    else
    let text0 := jsToString j
    let r1 : String × Bool × List ValidationWarning :=
      if text0.length = 0 then (defaultFeedbackText, true, [⟨field, "Empty string"⟩])
      else (text0, false, [])
    let r2 : String × Bool × List ValidationWarning :=
      if r1.1.length > maxLength then
        (String.mk (r1.1.toList.take maxLength) ++ "...", true,
          [⟨field, "String exceeds maximum length"⟩])
      else (r1.1, false, [])
    ⟨r2.1, r1.2.1 || r2.2.1, [], r1.2.2 ++ r2.2.2⟩

-- ===========================================================================
-- Main validation function (evaluation-validator.ts 226-326)
-- ===========================================================================

/-- The validated evaluation payload (evaluation.types.ts 28-36). -/
structure EvaluationResult where
  concept_accuracy : ℚ
  example_usage : ℚ
  edge_cases : ℚ
  clarity : ℚ
  final_score : ℚ
  overall_feedback : String
  improvement_tips : String
deriving DecidableEq

/-- The result record of `validateEvaluationResult`. -/
structure ValidationResult where
  isValid : Bool
  data : Option EvaluationResult
  errors : List ValidationError
  warnings : List ValidationWarning
  wasRepaired : Bool
deriving DecidableEq

/-- The early return of `validateEvaluationResult` when parsing failed (or
the parsed value is falsy). -/
def mkParseFailure (e : Option String) : ValidationResult :=
  { isValid := false
    data := none
    errors := [⟨"response", e.getD "Invalid JSON"⟩]
    warnings := []
    wasRepaired := false }

/-- The names of the four criterion fields whose errors make the result
invalid (evaluation-validator.ts 315-317). -/
def criticalFieldNames : List String :=
  ["concept_accuracy", "example_usage", "edge_cases", "clarity"]

/-- The `final_score` cross-check of `validateEvaluationResult`
(evaluation-validator.ts 279-291): when the response carries a
`final_score` that coerces to a number different from the recomputed sum,
a warning is recorded; the provided value is never used. -/
def finalScoreWarnings (d : Json) (calculated : ℚ) : List ValidationWarning :=
  match jget d "final_score" with
  | none => []
  | some fv =>
    match toNumber fv with
    | none => []
    | some provided =>
      if provided ≠ calculated then
        [⟨"final_score", "Provided final_score does not match sum of individual scores"⟩]
      else []

/-- The body of `validateEvaluationResult` applied to successfully parsed
(truthy) JSON data (evaluation-validator.ts 250-326). -/
def validateParsed (d : Json) : ValidationResult :=
  let conceptR := validateAndRepairScore (jget d "concept_accuracy") .concept_accuracy
  let exampleR := validateAndRepairScore (jget d "example_usage") .example_usage
  let edgeR := validateAndRepairScore (jget d "edge_cases") .edge_cases
  let clarityR := validateAndRepairScore (jget d "clarity") .clarity
  let calculatedFinalScore := conceptR.score + exampleR.score + edgeR.score + clarityR.score
  let finalWarnings := finalScoreWarnings d calculatedFinalScore
  let feedbackR := validateStringField (jget d "overall_feedback") "overall_feedback" 1000
  let tipsR := validateStringField (jget d "improvement_tips") "improvement_tips" 1000
  let errors := conceptR.errors ++ exampleR.errors ++ edgeR.errors ++ clarityR.errors ++
    feedbackR.errors ++ tipsR.errors
  let warnings := conceptR.warnings ++ exampleR.warnings ++ edgeR.warnings ++
    clarityR.warnings ++ finalWarnings ++ feedbackR.warnings ++ tipsR.warnings
  let wasRepaired := conceptR.wasRepaired || exampleR.wasRepaired || edgeR.wasRepaired ||
    clarityR.wasRepaired || !finalWarnings.isEmpty || feedbackR.wasRepaired || tipsR.wasRepaired
  let validatedResult : EvaluationResult :=
    { concept_accuracy := conceptR.score
      example_usage := exampleR.score
      edge_cases := edgeR.score
      clarity := clarityR.score
      final_score := calculatedFinalScore
      overall_feedback := feedbackR.text
      improvement_tips := tipsR.text }
  let hasCriticalErrors := errors.any (fun e => criticalFieldNames.contains e.field)
  { isValid := !hasCriticalErrors
    data := some validatedResult
    errors := errors
    warnings := warnings
    wasRepaired := wasRepaired }

/-- Function `validateEvaluationResult` (evaluation-validator.ts 226-326).  The
unused `_rubric` parameter of the source is dropped.  The guard models
`!parseResult.success || !parseResult.data`, JS-truthily. -/
def validateEvaluationResult (raw : String) : ValidationResult :=
  match parseEvaluationResponse raw with
  | ⟨s, some d, e⟩ => if s = false ∨ jsFalsy d then mkParseFailure e else validateParsed d
  | ⟨_, none, e⟩ => mkParseFailure e

-- ===========================================================================
-- Recovery strategy selector and default result (evaluation-validator.ts 354-406)
-- ===========================================================================

/-- Type `RecoveryStrategy` (evaluation-validator.ts 354-359). -/
inductive RecoveryStrategy where
  | RETRY_SAME_PROMPT | RETRY_SIMPLIFIED | USE_DEFAULT_SCORES | FAIL
deriving DecidableEq

/-- Function `determineRecoveryStrategy` (evaluation-validator.ts 363-390); note its
`maxRetries` is hardcoded to 2, independently of the client options. -/
def determineRecoveryStrategy (validationResult : ValidationResult)
    (retryCount : Nat) : RecoveryStrategy :=
  let maxRetries := 2
  if validationResult.isValid then RecoveryStrategy.RETRY_SAME_PROMPT
  else if validationResult.errors.any (fun e => e.field == "response") then
    if retryCount < maxRetries then
      if retryCount = 0 then RecoveryStrategy.RETRY_SAME_PROMPT
      else RecoveryStrategy.RETRY_SIMPLIFIED
    else RecoveryStrategy.USE_DEFAULT_SCORES
  else if retryCount < maxRetries then RecoveryStrategy.RETRY_SIMPLIFIED
  else RecoveryStrategy.USE_DEFAULT_SCORES

/-- Function `getDefaultEvaluationResult` (evaluation-validator.ts 396-406). -/
def getDefaultEvaluationResult (reason : String) : EvaluationResult :=
  { concept_accuracy := 0
    example_usage := 0
    edge_cases := 0
    clarity := 0
    final_score := 0
    overall_feedback := "Evaluation could not be completed: " ++ reason ++
      ". Please try again or contact support."
    improvement_tips := "Unable to provide specific improvement tips at this time." }

-- ===========================================================================
-- Evaluation client retry loop (llm-client.ts: EvaluationClient.evaluate)
-- ===========================================================================

/-- Which prompt builder an attempt uses: `buildEvaluationPrompt` (full) or
`buildFallbackPrompt` (simplified). -/
inductive PromptKind where
  | full | fallback
deriving DecidableEq

/-- The prompt choice of `evaluate` for a given `retryCount` (llm-client.ts
228-230): `retryCount === 0 ? buildEvaluationPrompt : buildFallbackPrompt`. -/
def promptAt (retryCount : Nat) : PromptKind :=
  if retryCount = 0 then PromptKind.full else PromptKind.fallback

/-- One provider attempt's observable behaviour: either resolving with
response text, or rejecting (provider HTTP/network error, or the
`callWithTimeout` race rejecting with `Request timeout`; both land in the
same `catch`). -/
inductive ProviderOutcome where
  | ok (content : String)
  | err (msg : String)

/-- Does the attempt reject? -/
def ProviderOutcome.isErr : ProviderOutcome → Bool
  | .ok _ => false
  | .err _ => true

/-- The response record of `EvaluationClient.evaluate` (evaluation.types.ts
61-66).  Wall-clock metadata fields (timestamps, durations, token usage)
are omitted from the embedding; `retry_count` is kept. -/
structure EvaluationResponse where
  success : Bool
  data : Option EvaluationResult
  retry_count : Nat
  error : Option String
deriving DecidableEq

/-- Model of the expression `validation.errors[0]?.message OR-ELSE the string Validation failed` (llm-client.ts 264). -/
def firstErrorMessage (v : ValidationResult) : String :=
  match v.errors.head? with
  | some e => if e.message = "" then "Validation failed" else e.message
  | none => "Validation failed"

/-- The post-loop return of `evaluate` (llm-client.ts 273-289): failure with
the all-zero default result. -/
def exhaustedResponse (retryCount : Nat) (lastError : Option String) :
    EvaluationResponse :=
  { success := false
    data := some (getDefaultEvaluationResult (lastError.getD "Evaluation failed"))
    retry_count := retryCount
    error := some (lastError.getD "Failed to evaluate answer after retries") }

/-- The retry loop of `EvaluationClient.evaluate` (llm-client.ts 225-271),
with the provider's behaviour abstracted as a function of the attempt's
`retryCount` and prompt variant.  The fuel argument mirrors the loop bound:
`evaluate` starts it at `maxRetries + 1`, and it reaches zero exactly when
`retryCount` exceeds `maxRetries`, so the fuel-exhausted branch coincides
with the loop-condition exit. -/
def evalLoop (behave : Nat → PromptKind → ProviderOutcome) (maxRetries : Nat) :
    Nat → Nat → Option String → EvaluationResponse
  | 0, retryCount, lastError => exhaustedResponse retryCount lastError
  | fuel + 1, retryCount, lastError =>
    if retryCount ≤ maxRetries then
      match behave retryCount (promptAt retryCount) with
      | .err msg => evalLoop behave maxRetries fuel (retryCount + 1) (some msg)
      | .ok content =>
        let validation := validateEvaluationResult content
        if validation.isValid && validation.data.isSome then
          { success := true
            data := validation.data
            retry_count := retryCount
            error := none }
        else if determineRecoveryStrategy validation retryCount =
            RecoveryStrategy.USE_DEFAULT_SCORES then
          exhaustedResponse retryCount lastError
        else
          evalLoop behave maxRetries fuel (retryCount + 1)
            (some (firstErrorMessage validation))
    else exhaustedResponse retryCount lastError

/-- Method `EvaluationClient.evaluate` (llm-client.ts 217-290) for a client with
the given `maxRetries` (option default 2).  The function is total: every
provider-side failure is absorbed, which is the formal counterpart of
"never throws for LLM-side failures". -/
def evaluate (behave : Nat → PromptKind → ProviderOutcome)
    (maxRetries : Nat := 2) : EvaluationResponse :=
  evalLoop behave maxRetries (maxRetries + 1) 0 none

-- ===========================================================================
-- Weighted-normalized scoring block (evaluate-answer edge function, 194-213)
-- ===========================================================================

/-- The optional per-criterion weights read off the request's `rubric`
object by the edge function. -/
structure RubricWeights where
  concept_accuracy : Option ℚ
  clarity : Option ℚ
  example_usage : Option ℚ
  edge_cases : Option ℚ

/-- Model of the coercion idiom (`Number(x)` with falsy fallback 0): numeric coercion with `NaN` (and, vacuously, `0`)
replaced by `0`; an absent property coerces from `undefined` to `NaN`. -/
def coerceOr0 (v : Option Json) : ℚ :=
  match v with
  | none => 0
  | some j =>
    match toNumber j with
    | none => 0
    | some q => q

/-- The scoring block of the `evaluate-answer` edge function (lines
194-213): weighted sum of the coerced criteria (weights defaulting to
0.4/0.3/0.2/0.1), capped at 1, scaled to 10 and rounded. -/
def weightedFinalScore (parsed : Json) (rubric : Option RubricWeights) : ℤ :=
  let concept := coerceOr0 (jget parsed "concept_accuracy")
  let clarity := coerceOr0 (jget parsed "clarity")
  let exampleV := coerceOr0 (jget parsed "example_usage")
  let edge := coerceOr0 (jget parsed "edge_cases")
  let wConcept := (rubric.bind RubricWeights.concept_accuracy).getD (mkRat 2 5)
  let wClarity := (rubric.bind RubricWeights.clarity).getD (mkRat 3 10)
  let wExample := (rubric.bind RubricWeights.example_usage).getD (mkRat 1 5)
  let wEdge := (rubric.bind RubricWeights.edge_cases).getD (mkRat 1 10)
  let rawScore := concept * wConcept + clarity * wClarity + exampleV * wExample + edge * wEdge
  let normalized := min rawScore 1
  jsRound (normalized * 10)

-- ===========================================================================
-- Structural validity of an EvaluationResult, and concrete test inputs
-- ===========================================================================

/-- Structural validity of an `EvaluationResult`: each criterion score is an
integer within its `SCORE_BOUNDS` range and `final_score` is the sum of the
four criterion scores. -/
def structurallyValid (r : EvaluationResult) : Prop :=
  r.concept_accuracy.den = 1 ∧ 0 ≤ r.concept_accuracy ∧ r.concept_accuracy ≤ 4 ∧
  r.example_usage.den = 1 ∧ 0 ≤ r.example_usage ∧ r.example_usage ≤ 3 ∧
  r.edge_cases.den = 1 ∧ 0 ≤ r.edge_cases ∧ r.edge_cases ≤ 2 ∧
  r.clarity.den = 1 ∧ 0 ≤ r.clarity ∧ r.clarity ≤ 1 ∧
  r.final_score = r.concept_accuracy + r.example_usage + r.edge_cases + r.clarity

instance (r : EvaluationResult) : Decidable (structurallyValid r) := by
  unfold structurallyValid
  infer_instance

/-- The bare rubric-conformant JSON object used by the recovery tests. -/
def testBare : String :=
  "\x7b\"concept_accuracy\":3,\"example_usage\":2,\"edge_cases\":1,\"clarity\":1,\"final_score\":7,\"overall_feedback\":\"ok\",\"improvement_tips\":\"ok\"\x7d"

/-- Input `testBare` wrapped in a `json`-tagged fenced code block inside prose. -/
def testFenced : String :=
  "Sure! Here is the result:\n" ++ String.mk fenceChars ++ "json\n" ++ testBare ++
  "\n" ++ String.mk fenceChars ++ "\nThanks!"

/-- Template for the quirky encoding, with `@` marking each single quote. -/
def testQuirkyTemplate : String :=
  "\x7b@concept_accuracy@:3,@example_usage@:2,@edge_cases@:1,@clarity@:1,@final_score@:7,@overall_feedback@:@ok@,@improvement_tips@:@ok@,\x7d"

/-- Input `testBare` re-encoded with single quotes and a trailing comma. -/
def testQuirky : String :=
  String.mk (testQuirkyTemplate.toList.map (fun c => if c = '@' then sqChar else c))

/-- The object all three encodings of the recovery test parse to. -/
def expectedParsed : Json :=
  Json.obj
    [("concept_accuracy", Json.num 3), ("example_usage", Json.num 2),
     ("edge_cases", Json.num 1), ("clarity", Json.num 1),
     ("final_score", Json.num 7), ("overall_feedback", Json.str "ok"),
     ("improvement_tips", Json.str "ok")]

/-- Scenario B input: `concept_accuracy: 7` against `max_score: 4`, other
fields valid (its `final_score` claims 11). -/
def scenarioB : String :=
  "\x7b\"concept_accuracy\":7,\"example_usage\":2,\"edge_cases\":1,\"clarity\":1,\"final_score\":11,\"overall_feedback\":\"ok\",\"improvement_tips\":\"ok\"\x7d"

/-- A response whose `final_score` (9) disagrees with the criterion sum (7). -/
def disagreeingFinal : String :=
  "\x7b\"concept_accuracy\":3,\"example_usage\":2,\"edge_cases\":1,\"clarity\":1,\"final_score\":9,\"overall_feedback\":\"ok\",\"improvement_tips\":\"ok\"\x7d"

/-- A parseable response with one out-of-range criterion and the other
three criteria (and both text fields) missing. -/
def partialResponse : String := "\x7b\"concept_accuracy\":99\x7d"

/-- Provider behaviour that rejects every attempt with a timeout. -/
def behaveTimeout : Nat → PromptKind → ProviderOutcome :=
  fun _ _ => ProviderOutcome.err "Request timeout"

/-- Provider behaviour for the prompt-choice experiment: the first attempt
returns unparseable text; afterwards the provider answers the full prompt
with a perfectly valid response but answers the fallback prompt with
unparseable text. -/
def behaveFullOnly : Nat → PromptKind → ProviderOutcome := fun n p =>
  if n = 0 then ProviderOutcome.ok "garbage"
  else if p = PromptKind.full then ProviderOutcome.ok testBare
  else ProviderOutcome.ok "garbage"

/-- A parsed response whose `concept_accuracy` is the numeric value -5. -/
def negativeParsed : Json := Json.obj [("concept_accuracy", Json.num (-5))]

-- ===========================================================================
-- Helper lemmas: score repair
-- ===========================================================================

theorem SCORE_BOUNDS_min_eq (f : ScoreField) : (SCORE_BOUNDS f).min = 0 := by
  cases f <;> rfl

theorem SCORE_BOUNDS_max_den (f : ScoreField) : (SCORE_BOUNDS f).max.den = 1 := by
  cases f <;> rfl

theorem SCORE_BOUNDS_max_nonneg (f : ScoreField) : 0 ≤ (SCORE_BOUNDS f).max := by
  cases f <;> norm_num [SCORE_BOUNDS]

theorem repairNumeric_den (q : ℚ) (f : ScoreField) :
    (repairNumeric q f).score.den = 1 := by
  unfold repairNumeric
  dsimp only
  split_ifs with h1 h2 h3 h4 h5 <;>
    simp_all [Rat.den_intCast, SCORE_BOUNDS_max_den, SCORE_BOUNDS_min_eq]

theorem repairNumeric_nonneg (q : ℚ) (f : ScoreField) :
    0 ≤ (repairNumeric q f).score := by
  have hmax := SCORE_BOUNDS_max_nonneg f
  have hmin := SCORE_BOUNDS_min_eq f
  unfold repairNumeric
  dsimp only
  split_ifs with h1 h2 h3 h4 h5 <;> simp_all

theorem repairNumeric_le_max (q : ℚ) (f : ScoreField) :
    (repairNumeric q f).score ≤ (SCORE_BOUNDS f).max := by
  have hmax := SCORE_BOUNDS_max_nonneg f
  have hmin := SCORE_BOUNDS_min_eq f
  unfold repairNumeric
  dsimp only
  split_ifs with h1 h2 h3 h4 h5 <;> simp_all

theorem repairNumeric_errors (q : ℚ) (f : ScoreField) :
    (repairNumeric q f).errors = [] := rfl

theorem repairNumeric_out_of_range (q : ℚ) (f : ScoreField)
    (h : q < 0 ∨ (SCORE_BOUNDS f).max < q) :
    (repairNumeric q f).wasRepaired = true ∧ (repairNumeric q f).warnings ≠ [] := by
  have hmin := SCORE_BOUNDS_min_eq f
  unfold repairNumeric
  dsimp only
  split_ifs with h1 h2 h3 h4 h5 <;> simp_all

theorem repairNumeric_not_int (q : ℚ) (f : ScoreField) (h : q.den ≠ 1) :
    (repairNumeric q f).wasRepaired = true ∧
      (⟨f.fieldName, "Score was not an integer"⟩ : ValidationWarning) ∈
        (repairNumeric q f).warnings := by
  unfold repairNumeric
  dsimp only
  split_ifs with h1 h2 h3 <;> simp_all

theorem Json.isNull_eq_false {j : Json} (hj : j ≠ Json.null) : j.isNull = false := by
  cases j <;> simp [Json.isNull] at hj ⊢

theorem repairScore_eq_repairNumeric (j : Json) (q : ℚ) (f : ScoreField)
    (hj : j ≠ Json.null) (h : toNumber j = some q) :
    validateAndRepairScore (some j) f = repairNumeric q f := by
  simp [validateAndRepairScore, Json.isNull_eq_false hj, h]

theorem repairScore_errors_shape (v : Option Json) (f : ScoreField) :
    (validateAndRepairScore v f).errors = [] ∨
    (validateAndRepairScore v f).errors = [⟨f.fieldName, "Missing required field"⟩] ∨
    (validateAndRepairScore v f).errors = [⟨f.fieldName, "Invalid number"⟩] := by
  unfold validateAndRepairScore
  split
  · right; left; rfl
  · split
    · right; left; rfl
    · split
      · right; right; rfl
      · left; apply repairNumeric_errors

theorem repairScore_errors_field (v : Option Json) (f : ScoreField) :
    ∀ e ∈ (validateAndRepairScore v f).errors, e.field = f.fieldName := by
  intro e he
  rcases repairScore_errors_shape v f with h | h | h <;> rw [h] at he <;> simp at he <;>
    simp [he]

theorem stringField_errors_shape (v : Option Json) (fld : String) (len : Nat) :
    (validateStringField v fld len).errors = [] ∨
    (validateStringField v fld len).errors = [⟨fld, "Missing required field"⟩] := by
  unfold validateStringField
  split
  · right; rfl
  · split
    · right; rfl
    · left; rfl

theorem stringField_errors_field (v : Option Json) (fld : String) (len : Nat) :
    ∀ e ∈ (validateStringField v fld len).errors, e.field = fld := by
  intro e he
  rcases stringField_errors_shape v fld len with h | h <;> rw [h] at he <;> simp at he
  simp [he]

-- ===========================================================================
-- Helper lemmas: validateParsed projections
-- ===========================================================================

theorem validateParsed_data (d : Json) :
    (validateParsed d).data = some
      { concept_accuracy :=
          (validateAndRepairScore (jget d "concept_accuracy") .concept_accuracy).score
        example_usage :=
          (validateAndRepairScore (jget d "example_usage") .example_usage).score
        edge_cases :=
          (validateAndRepairScore (jget d "edge_cases") .edge_cases).score
        clarity :=
          (validateAndRepairScore (jget d "clarity") .clarity).score
        final_score :=
          (validateAndRepairScore (jget d "concept_accuracy") .concept_accuracy).score +
          (validateAndRepairScore (jget d "example_usage") .example_usage).score +
          (validateAndRepairScore (jget d "edge_cases") .edge_cases).score +
          (validateAndRepairScore (jget d "clarity") .clarity).score
        overall_feedback :=
          (validateStringField (jget d "overall_feedback") "overall_feedback" 1000).text
        improvement_tips :=
          (validateStringField (jget d "improvement_tips") "improvement_tips" 1000).text } :=
  rfl

theorem validateParsed_errors (d : Json) :
    (validateParsed d).errors =
      (validateAndRepairScore (jget d "concept_accuracy") .concept_accuracy).errors ++
      (validateAndRepairScore (jget d "example_usage") .example_usage).errors ++
      (validateAndRepairScore (jget d "edge_cases") .edge_cases).errors ++
      (validateAndRepairScore (jget d "clarity") .clarity).errors ++
      (validateStringField (jget d "overall_feedback") "overall_feedback" 1000).errors ++
      (validateStringField (jget d "improvement_tips") "improvement_tips" 1000).errors :=
  rfl

theorem validateParsed_isValid (d : Json) :
    (validateParsed d).isValid =
      !((validateParsed d).errors.any (fun e => criticalFieldNames.contains e.field)) :=
  rfl

theorem repairScore_any_critical_iff (v : Option Json) (f : ScoreField)
    (hf : criticalFieldNames.contains f.fieldName = true) :
    ((validateAndRepairScore v f).errors.any
      (fun e => criticalFieldNames.contains e.field)) = false ↔
    (validateAndRepairScore v f).errors = [] := by
  rcases repairScore_errors_shape v f with h | h | h <;> rw [h] <;> simp [hf] <;>
    simpa using hf

theorem stringField_any_critical_false (v : Option Json) (fld : String) (len : Nat)
    (hf : criticalFieldNames.contains fld = false) :
    ((validateStringField v fld len).errors.any
      (fun e => criticalFieldNames.contains e.field)) = false := by
  rcases stringField_errors_shape v fld len with h | h <;> rw [h] <;> simp [hf]
  simpa using hf

theorem validateParsed_isValid_iff (d : Json) :
    (validateParsed d).isValid = true ↔
      (validateAndRepairScore (jget d "concept_accuracy") .concept_accuracy).errors = [] ∧
      (validateAndRepairScore (jget d "example_usage") .example_usage).errors = [] ∧
      (validateAndRepairScore (jget d "edge_cases") .edge_cases).errors = [] ∧
      (validateAndRepairScore (jget d "clarity") .clarity).errors = [] := by
  rw [validateParsed_isValid, validateParsed_errors]
  rw [Bool.not_eq_true']
  simp only [List.any_append, Bool.or_eq_false_iff]
  rw [repairScore_any_critical_iff _ _ (by decide),
    repairScore_any_critical_iff _ _ (by decide),
    repairScore_any_critical_iff _ _ (by decide),
    repairScore_any_critical_iff _ _ (by decide),
    stringField_any_critical_false _ _ _ (by decide),
    stringField_any_critical_false _ _ _ (by decide)]
  tauto

-- ===========================================================================
-- Helper lemmas: structural validity of validator output
-- ===========================================================================

theorem repairScore_den (v : Option Json) (f : ScoreField) :
    (validateAndRepairScore v f).score.den = 1 := by
  unfold validateAndRepairScore
  split
  · rfl
  · split
    · rfl
    · split
      · rfl
      · apply repairNumeric_den

theorem repairScore_nonneg (v : Option Json) (f : ScoreField) :
    0 ≤ (validateAndRepairScore v f).score := by
  unfold validateAndRepairScore
  split
  · norm_num
  · split
    · norm_num
    · split
      · norm_num
      · apply repairNumeric_nonneg

theorem repairScore_le_max (v : Option Json) (f : ScoreField) :
    (validateAndRepairScore v f).score ≤ (SCORE_BOUNDS f).max := by
  have := SCORE_BOUNDS_max_nonneg f
  unfold validateAndRepairScore
  split
  · simpa using this
  · split
    · simpa using this
    · split
      · simpa using this
      · apply repairNumeric_le_max

theorem den_one_add {a b : ℚ} (ha : a.den = 1) (hb : b.den = 1) : (a + b).den = 1 := by
  conv_lhs => rw [← (Rat.den_eq_one_iff a).mp ha, ← (Rat.den_eq_one_iff b).mp hb]
  rw [← Int.cast_add]
  exact Rat.den_intCast _

theorem validateParsed_struct (d : Json) :
    ∃ res, (validateParsed d).data = some res ∧ structurallyValid res ∧
      res.final_score.den = 1 ∧ 0 ≤ res.final_score ∧ res.final_score ≤ 10 := by
  refine ⟨_, validateParsed_data d, ?_, ?_, ?_, ?_⟩
  · constructor
    · exact repairScore_den _ _
    refine ⟨repairScore_nonneg _ _, ?_, repairScore_den _ _, repairScore_nonneg _ _, ?_,
      repairScore_den _ _, repairScore_nonneg _ _, ?_, repairScore_den _ _,
      repairScore_nonneg _ _, ?_, rfl⟩
    · simpa [SCORE_BOUNDS] using repairScore_le_max (jget d "concept_accuracy") .concept_accuracy
    · simpa [SCORE_BOUNDS] using repairScore_le_max (jget d "example_usage") .example_usage
    · simpa [SCORE_BOUNDS] using repairScore_le_max (jget d "edge_cases") .edge_cases
    · simpa [SCORE_BOUNDS] using repairScore_le_max (jget d "clarity") .clarity
  · exact den_one_add (den_one_add (den_one_add (repairScore_den _ _) (repairScore_den _ _))
      (repairScore_den _ _)) (repairScore_den _ _)
  · have h1 := repairScore_nonneg (jget d "concept_accuracy") ScoreField.concept_accuracy
    have h2 := repairScore_nonneg (jget d "example_usage") ScoreField.example_usage
    have h3 := repairScore_nonneg (jget d "edge_cases") ScoreField.edge_cases
    have h4 := repairScore_nonneg (jget d "clarity") ScoreField.clarity
    dsimp only
    linarith
  · have h1 := repairScore_le_max (jget d "concept_accuracy") ScoreField.concept_accuracy
    have h2 := repairScore_le_max (jget d "example_usage") ScoreField.example_usage
    have h3 := repairScore_le_max (jget d "edge_cases") ScoreField.edge_cases
    have h4 := repairScore_le_max (jget d "clarity") ScoreField.clarity
    simp only [SCORE_BOUNDS] at h1 h2 h3 h4
    dsimp only
    linarith

theorem validateER_eq_validateParsed (raw : String) (d : Json)
    (hp : parseEvaluationResponse raw = ⟨true, some d, none⟩)
    (hf : jsFalsy d = false) :
    validateEvaluationResult raw = validateParsed d := by
  unfold validateEvaluationResult
  rw [hp]
  simp [hf]

theorem validateER_data_struct (raw : String) (res : EvaluationResult)
    (h : (validateEvaluationResult raw).data = some res) : structurallyValid res := by
  unfold validateEvaluationResult at h
  revert h
  split
  · split
    · intro h; simp [mkParseFailure] at h
    · intro h
      rcases validateParsed_struct _ with ⟨r, hr, hs, _⟩
      rw [hr] at h
      injection h with h
      rw [← h]
      exact hs
  · intro h; simp [mkParseFailure] at h

-- ===========================================================================
-- Helper lemmas: warnings, defaults, and the retry loop
-- ===========================================================================

theorem repairScore_errors_nil (j : Json) (q : ℚ) (f : ScoreField)
    (hj : j ≠ Json.null) (h : toNumber j = some q) :
    (validateAndRepairScore (some j) f).errors = [] := by
  rw [repairScore_eq_repairNumeric j q f hj h]
  exact repairNumeric_errors q f

theorem validateParsed_warnings (d : Json) :
    (validateParsed d).warnings =
      (validateAndRepairScore (jget d "concept_accuracy") .concept_accuracy).warnings ++
      (validateAndRepairScore (jget d "example_usage") .example_usage).warnings ++
      (validateAndRepairScore (jget d "edge_cases") .edge_cases).warnings ++
      (validateAndRepairScore (jget d "clarity") .clarity).warnings ++
      finalScoreWarnings d
        ((validateAndRepairScore (jget d "concept_accuracy") .concept_accuracy).score +
         (validateAndRepairScore (jget d "example_usage") .example_usage).score +
         (validateAndRepairScore (jget d "edge_cases") .edge_cases).score +
         (validateAndRepairScore (jget d "clarity") .clarity).score) ++
      (validateStringField (jget d "overall_feedback") "overall_feedback" 1000).warnings ++
      (validateStringField (jget d "improvement_tips") "improvement_tips" 1000).warnings :=
  rfl

theorem finalScoreWarnings_of_mismatch (d : Json) (calculated : ℚ) (fv : Json) (p : ℚ)
    (hv : jget d "final_score" = some fv) (hp : toNumber fv = some p)
    (hne : p ≠ calculated) :
    finalScoreWarnings d calculated =
      [⟨"final_score", "Provided final_score does not match sum of individual scores"⟩] := by
  unfold finalScoreWarnings
  rw [hv]
  simp only []
  rw [hp]
  simp [hne]

theorem structurallyValid_default (reason : String) :
    structurallyValid (getDefaultEvaluationResult reason) := by
  unfold structurallyValid getDefaultEvaluationResult
  norm_num

theorem evalLoop_data_struct (behave : Nat → PromptKind → ProviderOutcome)
    (maxRetries : Nat) :
    ∀ fuel retryCount lastError, ∃ res,
      (evalLoop behave maxRetries fuel retryCount lastError).data = some res ∧
      structurallyValid res ∧
      ((evalLoop behave maxRetries fuel retryCount lastError).success = false →
        ∃ reason, res = getDefaultEvaluationResult reason) := by
  intro fuel
  induction fuel with
  | zero =>
    intro retryCount lastError
    exact ⟨_, rfl, structurallyValid_default _, fun _ => ⟨_, rfl⟩⟩
  | succ fuel ih =>
    intro retryCount lastError
    unfold evalLoop
    split
    · rcases hb : behave retryCount (promptAt retryCount) with c | msg
      · dsimp only
        split
        · rename_i hcond
          rw [Bool.and_eq_true, Option.isSome_iff_exists] at hcond
          rcases hcond.2 with ⟨res, hres⟩
          exact ⟨res, hres, validateER_data_struct _ _ hres, by simp⟩
        · split
          · exact ⟨_, rfl, structurallyValid_default _, fun _ => ⟨_, rfl⟩⟩
          · exact ih _ _
      · exact ih _ _
    · exact ⟨_, rfl, structurallyValid_default _, fun _ => ⟨_, rfl⟩⟩

theorem jsFalsy_of_jget (d : Json) (k : String) (v : Json) (h : jget d k = some v) :
    jsFalsy d = false := by
  cases d <;> simp_all [jget, jsFalsy]

theorem validateER_of_parse_fail (s : String)
    (h : parseEvaluationResponse s = ⟨false, none, some parseFailMsg⟩) :
    validateEvaluationResult s = mkParseFailure (some parseFailMsg) := by
  unfold validateEvaluationResult
  rw [h]

theorem mkParseFailure_strategy_zero :
    determineRecoveryStrategy (mkParseFailure (some parseFailMsg)) 0 =
      RecoveryStrategy.RETRY_SAME_PROMPT := by
  with_unfolding_all decide

theorem jsRound_le_ten {x : ℚ} (h : x ≤ 10) : jsRound x ≤ 10 := by
  unfold jsRound
  have hm : mkRat 1 2 = (1 : ℚ) / 2 := by
    rw [Rat.mkRat_eq_div]
    norm_num
  rw [hm]
  have h2 : ⌊x + 1 / 2⌋ < 11 := Int.floor_lt.mpr (by push_cast; linarith)
  omega

theorem jsRound_nonneg {x : ℚ} (h : 0 ≤ x) : 0 ≤ jsRound x := by
  unfold jsRound
  have hm : mkRat 1 2 = (1 : ℚ) / 2 := by
    rw [Rat.mkRat_eq_div]
    norm_num
  rw [hm]
  exact Int.le_floor.mpr (by push_cast; linarith)

-- ===========================================================================
-- Claim theorems
-- ===========================================================================

/-- C6: for every validation result with `isValid == false` (any error
classification) and every `retryCount ≥ 2` (the selector's hardcoded
`maxRetries`), `determineRecoveryStrategy` returns `USE_DEFAULT_SCORES`. -/
theorem claim6_use_default_when_exhausted (v : ValidationResult) (retryCount : Nat)
    (hv : v.isValid = false) (hrc : 2 ≤ retryCount) :
    determineRecoveryStrategy v retryCount = RecoveryStrategy.USE_DEFAULT_SCORES := by
  unfold determineRecoveryStrategy
  rw [hv]
  dsimp only
  split_ifs with h1 h2 h3 h4 <;> first | rfl | omega | simp_all

/-- Witness for C6 at a concrete invalid validation result (a terminal
parse failure) and `retryCount = 2`. -/
theorem claim6_witness :
    determineRecoveryStrategy (validateEvaluationResult "garbage") 2 =
      RecoveryStrategy.USE_DEFAULT_SCORES ∧
    (validateEvaluationResult "garbage").isValid = false :=
  ⟨claim6_use_default_when_exhausted (validateEvaluationResult "garbage") 2
      (by with_unfolding_all decide) (by norm_num),
    by with_unfolding_all decide⟩

set_option maxRecDepth 1000000 in
/-- C7: the recovery cascade parses (a) the bare JSON object, (b) the same
object in a `json` fenced block inside prose, and (c) the same object with
single quotes and a trailing comma, and all three return the same parsed
object. -/
theorem claim7_recovery_three_encodings :
    parseEvaluationResponse testBare = ⟨true, some expectedParsed, none⟩ ∧
    parseEvaluationResponse testFenced = ⟨true, some expectedParsed, none⟩ ∧
    parseEvaluationResponse testQuirky = ⟨true, some expectedParsed, none⟩ := by
  refine ⟨?_, ?_, ?_⟩ <;> with_unfolding_all rfl

set_option maxRecDepth 1000000 in
/-- C5: a numeric criterion value outside `[0, max]` ends up inside the
range with `wasRepaired == true` and a warning; a numeric non-integer value
is rounded with a warning; numeric values never produce errors (so these
corrections never make `isValid` false).  In particular (Scenario B),
`concept_accuracy: 7` against `max_score: 4` yields `concept_accuracy == 4`,
`wasRepaired == true`, `isValid == true` when the other fields are valid. -/
theorem claim5_clamp_round_warn :
    (∀ (j : Json) (q : ℚ) (f : ScoreField), j ≠ Json.null → toNumber j = some q →
      ((q < 0 ∨ (SCORE_BOUNDS f).max < q) →
        0 ≤ (validateAndRepairScore (some j) f).score ∧
        (validateAndRepairScore (some j) f).score ≤ (SCORE_BOUNDS f).max ∧
        (validateAndRepairScore (some j) f).wasRepaired = true ∧
        (validateAndRepairScore (some j) f).warnings ≠ []) ∧
      (q.den ≠ 1 →
        (validateAndRepairScore (some j) f).wasRepaired = true ∧
        (⟨f.fieldName, "Score was not an integer"⟩ : ValidationWarning) ∈
          (validateAndRepairScore (some j) f).warnings) ∧
      (validateAndRepairScore (some j) f).errors = []) ∧
    ((validateEvaluationResult scenarioB).isValid = true ∧
      (validateEvaluationResult scenarioB).wasRepaired = true ∧
      ((validateEvaluationResult scenarioB).data.map EvaluationResult.concept_accuracy) =
        some 4) := by
  constructor
  · intro j q f hj h
    rw [repairScore_eq_repairNumeric j q f hj h]
    refine ⟨fun hout => ?_, fun hden => repairNumeric_not_int q f hden,
      repairNumeric_errors q f⟩
    exact ⟨repairNumeric_nonneg q f, repairNumeric_le_max q f,
      (repairNumeric_out_of_range q f hout).1, (repairNumeric_out_of_range q f hout).2⟩
  · refine ⟨?_, ?_, ?_⟩ <;> with_unfolding_all decide

/-- Witness for C5: the clamp branch applied to the concrete numeric value
7 against the `concept_accuracy` bound `[0, 4]`. -/
theorem claim5_witness :
    0 ≤ (validateAndRepairScore (some (Json.num 7)) .concept_accuracy).score ∧
    (validateAndRepairScore (some (Json.num 7)) .concept_accuracy).score ≤
      (SCORE_BOUNDS .concept_accuracy).max ∧
    (validateAndRepairScore (some (Json.num 7)) .concept_accuracy).wasRepaired = true ∧
    (validateAndRepairScore (some (Json.num 7)) .concept_accuracy).warnings ≠ [] :=
  (claim5_clamp_round_warn.1 (Json.num 7) 7 .concept_accuracy (by intro h; cases h)
      rfl).1 (by right; norm_num [SCORE_BOUNDS])

/-- C1: for every raw response that parses to a JSON object whose four
criterion fields are present (non-null) and coerce to numbers,
`validateEvaluationResult` returns `isValid == true` and the returned
`final_score` equals the sum of the four repaired criterion scores; a
provided `final_score` that disagrees with that sum only yields a warning.
(The source treats JSON `null` like an absent field.) -/
theorem claim1_valid_and_sum (raw : String) (d : Json)
    (v1 v2 v3 v4 : Json) (q1 q2 q3 q4 : ℚ)
    (hp : parseEvaluationResponse raw = ⟨true, some d, none⟩)
    (h1 : jget d "concept_accuracy" = some v1) (h1n : v1 ≠ Json.null)
    (h1q : toNumber v1 = some q1)
    (h2 : jget d "example_usage" = some v2) (h2n : v2 ≠ Json.null)
    (h2q : toNumber v2 = some q2)
    (h3 : jget d "edge_cases" = some v3) (h3n : v3 ≠ Json.null)
    (h3q : toNumber v3 = some q3)
    (h4 : jget d "clarity" = some v4) (h4n : v4 ≠ Json.null)
    (h4q : toNumber v4 = some q4) :
    (validateEvaluationResult raw).isValid = true ∧
    ∃ res, (validateEvaluationResult raw).data = some res ∧
      res.final_score = res.concept_accuracy + res.example_usage +
        res.edge_cases + res.clarity ∧
      (∀ fv p, jget d "final_score" = some fv → toNumber fv = some p →
        p ≠ res.final_score →
        (⟨"final_score", "Provided final_score does not match sum of individual scores"⟩ :
          ValidationWarning) ∈ (validateEvaluationResult raw).warnings) := by
  have hobj : jsFalsy d = false := jsFalsy_of_jget d "concept_accuracy" v1 h1
  rw [validateER_eq_validateParsed raw d hp hobj]
  constructor
  · rw [validateParsed_isValid_iff, h1, h2, h3, h4]
    exact ⟨repairScore_errors_nil v1 q1 _ h1n h1q, repairScore_errors_nil v2 q2 _ h2n h2q,
      repairScore_errors_nil v3 q3 _ h3n h3q, repairScore_errors_nil v4 q4 _ h4n h4q⟩
  · refine ⟨_, validateParsed_data d, rfl, ?_⟩
    intro fv p hv hpn hne
    rw [validateParsed_warnings,
      finalScoreWarnings_of_mismatch d _ fv p hv hpn hne]
    simp

set_option maxRecDepth 1000000 in
/-- Witness for C1 at a concrete response whose `final_score` claims 9
while the criterion sum is 7: the result is valid, `final_score` is the
recomputed sum, and the disagreement is recorded as a warning. -/
theorem claim1_witness :
    (validateEvaluationResult disagreeingFinal).isValid = true ∧
    ∃ res, (validateEvaluationResult disagreeingFinal).data = some res ∧
      res.final_score = res.concept_accuracy + res.example_usage +
        res.edge_cases + res.clarity ∧
      (⟨"final_score", "Provided final_score does not match sum of individual scores"⟩ :
        ValidationWarning) ∈ (validateEvaluationResult disagreeingFinal).warnings := by
  have h := claim1_valid_and_sum disagreeingFinal
    (Json.obj
      [("concept_accuracy", Json.num 3), ("example_usage", Json.num 2),
       ("edge_cases", Json.num 1), ("clarity", Json.num 1),
       ("final_score", Json.num 9), ("overall_feedback", Json.str "ok"),
       ("improvement_tips", Json.str "ok")])
    (Json.num 3) (Json.num 2) (Json.num 1) (Json.num 1) 3 2 1 1
    (by with_unfolding_all rfl)
    (by with_unfolding_all rfl) (by intro h; cases h) rfl
    (by with_unfolding_all rfl) (by intro h; cases h) rfl
    (by with_unfolding_all rfl) (by intro h; cases h) rfl
    (by with_unfolding_all rfl) (by intro h; cases h) rfl
  rcases h with ⟨hvalid, res, hres, hsum, hwarn⟩
  have hres7 : res.final_score = 7 := by
    have hd : (validateEvaluationResult disagreeingFinal).data =
        some { concept_accuracy := 3, example_usage := 2, edge_cases := 1, clarity := 1,
               final_score := 7, overall_feedback := "ok", improvement_tips := "ok" } := by
      with_unfolding_all rfl
    rw [hd] at hres
    injection hres with hres
    rw [← hres]
  exact ⟨hvalid, res, hres, hsum,
    hwarn (Json.num 9) 9 (by with_unfolding_all rfl) rfl (by rw [hres7]; norm_num)⟩

/-- C10 (amended): whenever the recovery cascade succeeds AND the parsed
value is truthy (in particular whenever it is an object), the validator
returns a populated `data` object — even when `isValid == false` — whose
four criterion scores are integers within their fixed `SCORE_BOUNDS`
ranges and whose `final_score` is their sum, hence an integer in
`[0, 10]`.  (The source's unused rubric parameter is dropped from the
embedding, which records that the bounds ignore it.) -/
theorem claim10_bounds (raw : String) (d : Json)
    (hp : parseEvaluationResponse raw = ⟨true, some d, none⟩)
    (hf : jsFalsy d = false) :
    ∃ res, (validateEvaluationResult raw).data = some res ∧
      structurallyValid res ∧ res.final_score.den = 1 ∧
      0 ≤ res.final_score ∧ res.final_score ≤ 10 := by
  rw [validateER_eq_validateParsed raw d hp hf]
  exact validateParsed_struct d

/-- Counterexample to C10 as stated: on the raw response `"null"` the
cascade succeeds (`success == true`), yet `validateEvaluationResult`
returns no data object at all, because the validator's truthiness guard
(`!parseResult.data`) treats the parsed `null` as a parse failure. -/
theorem claim10_counterexample :
    (parseEvaluationResponse "null").success = true ∧
    (validateEvaluationResult "null").data = none := by
  constructor <;> with_unfolding_all rfl

set_option maxRecDepth 1000000 in
/-- Witness for C10 at a parseable response with one out-of-range
criterion and every other field missing: `isValid` is false, yet the data
object is populated and satisfies all the bounds. -/
theorem claim10_witness :
    ∃ res, (validateEvaluationResult partialResponse).data = some res ∧
      structurallyValid res ∧ res.final_score.den = 1 ∧
      0 ≤ res.final_score ∧ res.final_score ≤ 10 := by
  exact claim10_bounds partialResponse (Json.obj [("concept_accuracy", Json.num 99)])
    (by with_unfolding_all rfl) rfl

/-- Counterexample to C8 as stated: a missing free-text field is recorded
as an error (with the default substituted), not as a warning. -/
theorem claim8_counterexample :
    (validateStringField none "overall_feedback" 1000).errors ≠ [] ∧
    (validateStringField none "overall_feedback" 1000).warnings = [] := by
  exact ⟨by decide, rfl⟩

/-- C8 (amended): for the two free-text fields, a missing (undefined/null)
value substitutes the fixed default and records an error (not a warning) —
though that error, being outside the four criterion fields, never affects
`isValid`; an empty string substitutes the default with a warning; an
overlength string is truncated with an ellipsis and a warning; and
`isValid` is characterised by the criterion errors alone, so the
string-field repairs never make it false. -/
theorem claim8_string_field_repairs :
    (∀ (fld : String) (len : Nat),
      validateStringField none fld len =
        ⟨defaultFeedbackText, true, [⟨fld, "Missing required field"⟩], []⟩ ∧
      validateStringField (some Json.null) fld len =
        ⟨defaultFeedbackText, true, [⟨fld, "Missing required field"⟩], []⟩) ∧
    (∀ fld : String,
      validateStringField (some (Json.str "")) fld 1000 =
        ⟨defaultFeedbackText, true, [], [⟨fld, "Empty string"⟩]⟩) ∧
    (∀ (fld s : String), 1000 < s.length →
      validateStringField (some (Json.str s)) fld 1000 =
        ⟨String.mk (s.toList.take 1000) ++ "...", true, [],
          [⟨fld, "String exceeds maximum length"⟩]⟩) ∧
    (∀ d : Json, (validateParsed d).isValid = true ↔
      (validateAndRepairScore (jget d "concept_accuracy") .concept_accuracy).errors = [] ∧
      (validateAndRepairScore (jget d "example_usage") .example_usage).errors = [] ∧
      (validateAndRepairScore (jget d "edge_cases") .edge_cases).errors = [] ∧
      (validateAndRepairScore (jget d "clarity") .clarity).errors = []) := by
  refine ⟨fun fld len => ⟨rfl, rfl⟩, fun fld => rfl, fun fld s h => ?_, validateParsed_isValid_iff⟩
  have h0 : s.length ≠ 0 := by omega
  simp [validateStringField, Json.isNull, jsToString, h0, h]

set_option maxRecDepth 100000 in
/-- Witness for C8: the truncation branch applied to a concrete
1005-character string. -/
theorem claim8_witness :
    validateStringField (some (Json.str (String.mk (List.replicate 1005 'a'))))
        "overall_feedback" 1000 =
      ⟨String.mk ((String.mk (List.replicate 1005 'a')).toList.take 1000) ++ "...", true, [],
        [⟨"overall_feedback", "String exceeds maximum length"⟩]⟩ :=
  claim8_string_field_repairs.2.2.1 "overall_feedback" (String.mk (List.replicate 1005 'a'))
    (by decide)

/-- C2: for every provider behaviour (rejecting, timing out, or resolving
with arbitrary text on each attempt) and every retry budget,
`evaluate` is total (the model's counterpart of "never throws") and always
returns a response whose `data` is a structurally valid
`EvaluationResult`; when `success == false` the data is the all-zero
default result with an explanatory feedback string. -/
theorem claim2_always_structurally_valid (behave : Nat → PromptKind → ProviderOutcome)
    (maxRetries : Nat) :
    ∃ res, (evaluate behave maxRetries).data = some res ∧ structurallyValid res ∧
      ((evaluate behave maxRetries).success = false →
        ∃ reason, res = getDefaultEvaluationResult reason) :=
  evalLoop_data_struct behave maxRetries (maxRetries + 1) 0 none

/-- Counterexample to C3 as stated: when the provider times out on all
`maxRetries + 1` attempts, the catch-branch increments `retryCount` before
the loop condition fails, so the returned `metadata.retry_count` is
`maxRetries + 1 = 3`, not `maxRetries = 2` — while the rest of the
scenario (failure with the all-zero default result) does hold. -/
theorem claim3_counterexample :
    (evaluate behaveTimeout 2).success = false ∧
    (evaluate behaveTimeout 2).data = some (getDefaultEvaluationResult "Request timeout") ∧
    (evaluate behaveTimeout 2).retry_count = 3 ∧
    (evaluate behaveTimeout 2).retry_count ≠ 2 := by
  refine ⟨?_, ?_, ?_, ?_⟩ <;> with_unfolding_all decide

/-- C3 (amended): if the provider call rejects (times out or throws) on
every one of the `maxRetries + 1 = 3` attempts, `evaluate` returns
`success == false` with the all-zero result, and `retry_count` equals
`maxRetries + 1 = 3`. -/
theorem claim3_exhaustion_retry_count (behave : Nat → PromptKind → ProviderOutcome)
    (h : ∀ n p, (behave n p).isErr = true) :
    (evaluate behave 2).success = false ∧
    (evaluate behave 2).retry_count = 3 ∧
    ∃ res, (evaluate behave 2).data = some res ∧
      res.concept_accuracy = 0 ∧ res.example_usage = 0 ∧ res.edge_cases = 0 ∧
      res.clarity = 0 ∧ res.final_score = 0 := by
  have h0 := h 0 (promptAt 0)
  have h1 := h 1 (promptAt 1)
  have h2 := h 2 (promptAt 2)
  rcases hb0 : behave 0 (promptAt 0) with c | m0
  · rw [hb0] at h0; simp [ProviderOutcome.isErr] at h0
  rcases hb1 : behave 1 (promptAt 1) with c | m1
  · rw [hb1] at h1; simp [ProviderOutcome.isErr] at h1
  rcases hb2 : behave 2 (promptAt 2) with c | m2
  · rw [hb2] at h2; simp [ProviderOutcome.isErr] at h2
  unfold evaluate
  simp only [evalLoop, hb0, hb1, hb2]
  norm_num [exhaustedResponse, getDefaultEvaluationResult]

/-- Witness for C3 (amended) at the concrete always-timeout behaviour. -/
theorem claim3_witness :
    (evaluate behaveTimeout 2).success = false ∧
    (evaluate behaveTimeout 2).retry_count = 3 ∧
    ∃ res, (evaluate behaveTimeout 2).data = some res ∧
      res.concept_accuracy = 0 ∧ res.example_usage = 0 ∧ res.edge_cases = 0 ∧
      res.clarity = 0 ∧ res.final_score = 0 :=
  claim3_exhaustion_retry_count behaveTimeout (fun _ _ => rfl)

set_option maxRecDepth 1000000 in
/-- Counterexample to C4 as stated: `evaluate` chooses the prompt solely by
`retryCount` (`retryCount === 0 ? full : fallback`), ignoring the strategy
selector's `RETRY_SAME_PROMPT`.  Under `behaveFullOnly` the first attempt
is a terminal parse failure and every later attempt would succeed if (and
only if) asked with the full prompt; the claim therefore predicts overall
success, but the run fails — because attempt 1 is made with the fallback
prompt (`promptAt 1 = fallback`), exactly the prompt `behaveFullOnly`
answers with garbage. -/
theorem claim4_counterexample :
    (evaluate behaveFullOnly 2).success = false ∧
    behaveFullOnly 1 PromptKind.full = ProviderOutcome.ok testBare ∧
    (validateEvaluationResult testBare).isValid = true ∧
    promptAt 1 = PromptKind.fallback := by
  refine ⟨?_, rfl, ?_, rfl⟩ <;> with_unfolding_all decide

/-- C4 (amended): after a terminal parse failure on the first attempt
(`retryCount == 0`), `determineRecoveryStrategy` does return
`RETRY_SAME_PROMPT`, but the loop's next iteration runs with
`retryCount = 1`, and the prompt selection (`promptAt`) then picks the
fallback prompt — the full prompt is never reused. -/
theorem claim4_fallback_prompt_on_retry (behave : Nat → PromptKind → ProviderOutcome)
    (maxRetries fuel : Nat) (lastError : Option String) (s : String)
    (hb : behave 0 (promptAt 0) = ProviderOutcome.ok s)
    (hterm : parseEvaluationResponse s = ⟨false, none, some parseFailMsg⟩) :
    determineRecoveryStrategy (validateEvaluationResult s) 0 =
      RecoveryStrategy.RETRY_SAME_PROMPT ∧
    promptAt 1 = PromptKind.fallback ∧
    evalLoop behave maxRetries (fuel + 1) 0 lastError =
      evalLoop behave maxRetries fuel 1
        (some (firstErrorMessage (validateEvaluationResult s))) := by
  have hv := validateER_of_parse_fail s hterm
  refine ⟨by rw [hv]; exact mkParseFailure_strategy_zero, rfl, ?_⟩
  simp only [evalLoop, hb, hv]
  norm_num [mkParseFailure, firstErrorMessage, determineRecoveryStrategy]
  intro hcon
  exact absurd hcon (by decide)

set_option maxRecDepth 1000000 in
/-- Witness for C4 (amended): the concrete run in which the first attempt
returns unparseable text. -/
theorem claim4_witness :
    determineRecoveryStrategy (validateEvaluationResult "garbage") 0 =
      RecoveryStrategy.RETRY_SAME_PROMPT ∧
    promptAt 1 = PromptKind.fallback ∧
    evalLoop behaveFullOnly 2 3 0 none =
      evalLoop behaveFullOnly 2 2 1
        (some (firstErrorMessage (validateEvaluationResult "garbage"))) :=
  claim4_fallback_prompt_on_retry behaveFullOnly 2 2 none "garbage" rfl
    (by with_unfolding_all rfl)

/-- Counterexample to C9 as stated: a parsed response with a negative
criterion value drives the weighted-normalized score below 0 (there is no
lower cap, only the `min(·, 1)` upper cap), so the result is not in
`[0, 10]`. -/
theorem claim9_counterexample :
    weightedFinalScore negativeParsed none = -20 ∧
    ¬(0 ≤ weightedFinalScore negativeParsed none) := by
  constructor <;> with_unfolding_all decide

/-- C9 (amended): the weighted-normalized score equals
`round(min(concept*w1 + clarity*w2 + example*w3 + edge*w4, 1) * 10)` with
the weights defaulting to 0.4/0.3/0.2/0.1 (each overridable from the
rubric) and non-numeric criteria contributing 0; the result is an integer
that is always at most 10, and it lies in `[0, 10]` whenever the coerced
criterion values and the effective weights are nonnegative (as they are
for LLM-conformant responses under the default weights). -/
theorem claim9_weighted_range (parsed : Json) (rubric : Option RubricWeights) :
    weightedFinalScore parsed rubric =
      jsRound (min (coerceOr0 (jget parsed "concept_accuracy") *
            ((rubric.bind RubricWeights.concept_accuracy).getD (mkRat 2 5)) +
          coerceOr0 (jget parsed "clarity") *
            ((rubric.bind RubricWeights.clarity).getD (mkRat 3 10)) +
          coerceOr0 (jget parsed "example_usage") *
            ((rubric.bind RubricWeights.example_usage).getD (mkRat 1 5)) +
          coerceOr0 (jget parsed "edge_cases") *
            ((rubric.bind RubricWeights.edge_cases).getD (mkRat 1 10))) 1 * 10) ∧
    weightedFinalScore parsed rubric ≤ 10 ∧
    (0 ≤ coerceOr0 (jget parsed "concept_accuracy") →
     0 ≤ coerceOr0 (jget parsed "clarity") →
     0 ≤ coerceOr0 (jget parsed "example_usage") →
     0 ≤ coerceOr0 (jget parsed "edge_cases") →
     0 ≤ (rubric.bind RubricWeights.concept_accuracy).getD (mkRat 2 5) →
     0 ≤ (rubric.bind RubricWeights.clarity).getD (mkRat 3 10) →
     0 ≤ (rubric.bind RubricWeights.example_usage).getD (mkRat 1 5) →
     0 ≤ (rubric.bind RubricWeights.edge_cases).getD (mkRat 1 10) →
     0 ≤ weightedFinalScore parsed rubric) := by
  refine ⟨rfl, ?_, ?_⟩
  · show jsRound _ ≤ 10
    apply jsRound_le_ten
    have hmin : min (coerceOr0 (jget parsed "concept_accuracy") *
          ((rubric.bind RubricWeights.concept_accuracy).getD (mkRat 2 5)) +
        coerceOr0 (jget parsed "clarity") *
          ((rubric.bind RubricWeights.clarity).getD (mkRat 3 10)) +
        coerceOr0 (jget parsed "example_usage") *
          ((rubric.bind RubricWeights.example_usage).getD (mkRat 1 5)) +
        coerceOr0 (jget parsed "edge_cases") *
          ((rubric.bind RubricWeights.edge_cases).getD (mkRat 1 10))) 1 ≤ 1 :=
      min_le_right _ _
    linarith
  · intro hc hcl he hed hw1 hw2 hw3 hw4
    show 0 ≤ jsRound _
    apply jsRound_nonneg
    have hraw : 0 ≤ coerceOr0 (jget parsed "concept_accuracy") *
          ((rubric.bind RubricWeights.concept_accuracy).getD (mkRat 2 5)) +
        coerceOr0 (jget parsed "clarity") *
          ((rubric.bind RubricWeights.clarity).getD (mkRat 3 10)) +
        coerceOr0 (jget parsed "example_usage") *
          ((rubric.bind RubricWeights.example_usage).getD (mkRat 1 5)) +
        coerceOr0 (jget parsed "edge_cases") *
          ((rubric.bind RubricWeights.edge_cases).getD (mkRat 1 10)) := by
      have := mul_nonneg hc hw1
      have := mul_nonneg hcl hw2
      have := mul_nonneg he hw3
      have := mul_nonneg hed hw4
      linarith
    have hm : 0 ≤ min (coerceOr0 (jget parsed "concept_accuracy") *
          ((rubric.bind RubricWeights.concept_accuracy).getD (mkRat 2 5)) +
        coerceOr0 (jget parsed "clarity") *
          ((rubric.bind RubricWeights.clarity).getD (mkRat 3 10)) +
        coerceOr0 (jget parsed "example_usage") *
          ((rubric.bind RubricWeights.example_usage).getD (mkRat 1 5)) +
        coerceOr0 (jget parsed "edge_cases") *
          ((rubric.bind RubricWeights.edge_cases).getD (mkRat 1 10))) 1 :=
      le_min hraw (by norm_num)
    linarith

/-- Witness for C9 (amended) at the rubric-conformant parsed object and the
default weights. -/
theorem claim9_witness :
    weightedFinalScore expectedParsed none ≤ 10 ∧
    0 ≤ weightedFinalScore expectedParsed none := by
  have h := claim9_weighted_range expectedParsed none
  refine ⟨h.2.1, h.2.2 ?_ ?_ ?_ ?_ ?_ ?_ ?_ ?_⟩ <;> with_unfolding_all decide
